import Mathlib

/-!
Verification of the COINQVEST merchant SDK client (`src/lib/index.js`):
a shallow embedding of the request-signing and dispatch logic, together
with theorems about validation, signature construction and transport
error handling.

The JavaScript runtime is modelled as follows:
* `JSValue` is the type of JavaScript values that can reach the client's
  public methods (`null`, `undefined`, booleans, numbers, strings,
  arrays, plain objects, functions).  Numbers are modelled as integers,
  which covers every value the claims exercise.
* `typeofJS` and `jsTruthy` reproduce JavaScript's `typeof` operator and
  truthiness coercion on these values.
* `JSON.stringify` is modelled by `jsonStringify`, returning `none`
  exactly where JavaScript returns `undefined` (for `undefined` and
  functions); string concatenation with that `undefined` result is
  modelled by `jsonSegment`, which yields the literal text "undefined",
  as JavaScript's `+` does.
* `crypto.createHmac('sha256', secret).update(msg).digest('hex')` is an
  external collaborator; it is modelled by an explicit function argument
  `hmac : String → String → String` applied to the secret and the exact
  signing string the source builds.
* `Date.now() / 1000 | 0` is ambient time; the whole-second timestamp is
  passed in as a `Nat` argument.
* The axios transport is an external collaborator modelled as a function
  from the built request configuration to a `TransportOutcome`; a
  rejected promise carries an arbitrary error value `e`, whose
  `e.response` property is read with `getProp`.
-/

/-- JavaScript values reaching the client's public API surface. -/
inductive JSValue where
  | vNull : JSValue
  | vUndefined : JSValue
  | vBool : Bool → JSValue
  | vNum : Int → JSValue
  | vStr : String → JSValue
  | vArr : List JSValue → JSValue
  | vObj : List (String × JSValue) → JSValue
  | vFunc : JSValue

/-- JavaScript's `typeof` operator on the modelled values.  `typeof null`
and `typeof` of an array are both `"object"`. -/
def typeofJS : JSValue → String
  | .vNull => "object"
  | .vUndefined => "undefined"
  | .vBool _ => "boolean"
  | .vNum _ => "number"
  | .vStr _ => "string"
  | .vArr _ => "object"
  | .vObj _ => "object"
  | .vFunc => "function"

/-- JavaScript truthiness: `null`, `undefined`, `false`, `0` and `""`
are falsy; every object, array and function is truthy. -/
def jsTruthy : JSValue → Bool
  | .vNull => false
  | .vUndefined => false
  | .vBool b => b
  | .vNum n => n != 0
  | .vStr s => s != ""
  | .vArr _ => true
  | .vObj _ => true
  | .vFunc => true

/-- Property lookup `v.k`: on a plain object the first binding of the
key, otherwise (or when the key is absent) `undefined`. -/
def getProp (v : JSValue) (k : String) : JSValue :=
  match v with
  | .vObj fs =>
      match fs.find? (fun p => p.1 == k) with
      | some p => p.2
      | none => .vUndefined
  | _ => .vUndefined

/-- The string a JavaScript string value holds; validation guarantees
this is only consulted on `vStr`. -/
def JSValue.asString : JSValue → String
  | .vStr s => s
  | _ => ""

/-- One lowercase hex digit. -/
def hexDigit (n : Nat) : String :=
  String.singleton (if n < 10 then Char.ofNat (48 + n) else Char.ofNat (87 + n))

/-- Two lowercase hex digits of a byte, as in `JSON.stringify`'s
control-character escapes. -/
def hexByte (n : Nat) : String :=
  hexDigit (n / 16 % 16) ++ hexDigit (n % 16)

/-- `JSON.stringify`'s escaping of a single character inside a string
literal. -/
def jsonEscapeChar (c : Char) : String :=
  if c = '"' then "\\\""
  else if c = '\\' then "\\\\"
  else if c = '\n' then "\\n"
  else if c = '\r' then "\\r"
  else if c = '\t' then "\\t"
  else if c = '\x08' then "\\b"
  else if c = '\x0c' then "\\f"
  else if c.toNat < 32 then "\\u00" ++ hexByte c.toNat
  else String.singleton c

/-- `JSON.stringify` of a string: double quotes around the escaped
characters. -/
def jsonQuote (s : String) : String :=
  "\"" ++ String.join (s.toList.map jsonEscapeChar) ++ "\""

mutual

/-- `JSON.stringify`.  Returns `none` exactly where JavaScript returns
`undefined`: for `undefined` itself and for functions.  In arrays such
elements render as `null`; in objects such members are skipped. -/
def jsonStringify : JSValue → Option String
  | .vNull => some "null"
  | .vUndefined => none
  | .vBool b => some (if b then "true" else "false")
  | .vNum n => some (toString n)
  | .vStr s => some (jsonQuote s)
  | .vArr xs => some ("[" ++ String.intercalate "," (jsonArrayElems xs) ++ "]")
  | .vObj fs => some ("\x7b" ++ String.intercalate "," (jsonObjFields fs) ++ "\x7d")
  | .vFunc => none

/-- Rendered elements of an array under `JSON.stringify`. -/
def jsonArrayElems : List JSValue → List String
  | [] => []
  | x :: xs =>
      (match jsonStringify x with
       | some s => s
       | none => "null") :: jsonArrayElems xs

/-- Rendered `"key":value` members of an object under `JSON.stringify`;
members whose value stringifies to `undefined` are dropped. -/
def jsonObjFields : List (String × JSValue) → List String
  | [] => []
  | (k, v) :: fs =>
      match jsonStringify v with
      | some s => (jsonQuote k ++ ":" ++ s) :: jsonObjFields fs
      | none => jsonObjFields fs

end

/-- The body segment as it enters the signing-string concatenation:
JavaScript's `+` coerces the `undefined` result of `JSON.stringify` to
the literal text "undefined". -/
def jsonSegment (v : JSValue) : String :=
  (jsonStringify v).getD "undefined"

/-- The four HTTP methods the client exposes; `sendRequest` is only ever
called with the lowercase method strings of these four. -/
inductive Method where
  | get : Method
  | post : Method
  | put : Method
  | delete : Method
deriving DecidableEq

/-- The lowercase method string with which the public methods invoke
`sendRequest` (`'get'`, `'post'`, `'put'`, `'delete'`). -/
def methodStr : Method → String
  | .get => "get"
  | .post => "post"
  | .put => "put"
  | .delete => "delete"

/-- JavaScript's `String.prototype.toUpperCase` on one character, for
the ASCII range the method strings live in. -/
def jsToUpperChar (c : Char) : Char :=
  if 'a' ≤ c ∧ c ≤ 'z' then Char.ofNat (c.toNat - 32) else c

/-- JavaScript's `String.prototype.toUpperCase` (ASCII range). -/
def jsToUpper (s : String) : String :=
  String.mk (s.toList.map jsToUpperChar)

/-- The client state set up by the constructor `Client(key, secret)`:
the credentials plus the fixed version/name strings. -/
structure Client where
  key : String
  secret : String
  clientVersion : String
  clientName : String
  apiVersion : String

/-- `new Client(key, secret)`: stores the credentials and the constant
SDK identification strings. -/
def Client.new (key secret : String) : Client :=
  { key := key, secret := secret, clientVersion := "0.0.1",
    clientName := "nodejs-merchant-sdk", apiVersion := "v1" }

/-- `validateEndpoint`: the endpoint must be a string whose
`substring(0,1)` is `'/'`. -/
def validateEndpoint : JSValue → Bool
  | .vStr s => s.take 1 == "/"
  | _ => false

/-- `validateParams`: any value of `typeof === 'object'` passes (plain
objects, arrays and `null`); otherwise only falsy values pass
(`!params`). -/
def validateParams (params : JSValue) : Bool :=
  if typeofJS params == "object" then true
  else !(jsTruthy params)

/-- `validateCallback`: the callback must satisfy
`typeof callback === 'function'`. -/
def validateCallback (callback : JSValue) : Bool :=
  typeofJS callback == "function"

/-- `validateArgs`: runs the three validators in order; on the first
failure it logs the corresponding message and stops.  `some msg` models
"logged `msg` and returned `false`", `none` models `true`. -/
def validateArgs (m : Method) (endpoint params callback : JSValue) : Option String :=
  if validateEndpoint endpoint = false then
    some ("Invalid endpoint given to " ++ methodStr m ++ " method.")
  else if validateParams params = false then
    some ("Invalid params given to " ++ methodStr m ++ " method.")
  else if validateCallback callback = false then
    some ("Invalid callback given to " ++ methodStr m ++ " method.")
  else
    none

/-- The headers object assembled by `buildConfig`. -/
structure Headers where
  userAgent : String
  accept : String
  xDigestKey : String
  xDigestSignature : String
  xDigestTimestamp : Nat

/-- The axios request configuration produced by `buildConfig` after
`Object.assign` merges the base options with the per-request extras
(the key sets are disjoint, so the merge is a plain record). -/
structure RequestConfig where
  baseURL : String
  responseType : String
  responseEncoding : String
  headers : Headers
  method : Method
  url : String
  params : JSValue
  data : JSValue

/-- `buildConfig(extras)`: computes the HMAC signature over
`extras.url + timestamp + extras.method.toUpperCase() +
(extras.method === 'get' ? '' : JSON.stringify(extras.data))` and
assembles the full request configuration.  The HMAC collaborator and the
whole-second timestamp are explicit arguments. -/
def buildConfig (hmac : String → String → String) (c : Client) (ts : Nat)
    (m : Method) (url : String) (paramsField dataField : JSValue) : RequestConfig :=
  let signature := hmac c.secret
    (url ++ toString ts ++ jsToUpper (methodStr m) ++
      (match m with
       | .get => ""
       | _ => jsonSegment dataField))
  { baseURL := "https://www.coinqvest.com/api/" ++ c.apiVersion ++ "/",
    responseType := "json",
    responseEncoding := "utf8",
    headers :=
      { userAgent := c.clientName ++ " " ++ c.clientVersion,
        accept := "application/json",
        xDigestKey := c.key,
        xDigestSignature := signature,
        xDigestTimestamp := ts },
    method := m,
    url := url,
    params := paramsField,
    data := dataField }

/-- The configuration `sendRequest` hands to `buildConfig`: the endpoint
string as `url`, and the params routed to query parameters for GET
(`params: method === 'get' ? params : null`) and to the JSON body
otherwise (`data: method === 'get' ? null : params`).  Validation
guarantees `endpoint` is a `vStr`, so `asString` reads its text. -/
def requestConfigOf (hmac : String → String → String) (c : Client) (ts : Nat)
    (m : Method) (endpoint params : JSValue) : RequestConfig :=
  buildConfig hmac c ts m endpoint.asString
    (match m with | .get => params | _ => .vNull)
    (match m with | .get => .vNull | _ => params)

/-- Outcome of the axios collaborator: a fulfilled promise carrying the
response value, or a rejected promise carrying an error value. -/
inductive TransportOutcome where
  | success : JSValue → TransportOutcome
  | failure : JSValue → TransportOutcome

/-- Observable trace of one `sendRequest` call.
* `rejected msg`: validation failed; `msg` was logged, the transport was
  never invoked, no exception was raised and the callback never runs.
* `succeeded cfg r`: `cfg` was handed to the transport, which fulfilled
  with `r`; `.then(callback)` passed `r` to the callback.
* `failed cfg msg arg`: `cfg` was handed to the transport, which
  rejected with an error `e`; the catch handler logged
  `msg = JSON.stringify(e)` and passed `arg = e.response` to the
  callback. -/
inductive DispatchTrace where
  | rejected : String → DispatchTrace
  | succeeded : RequestConfig → JSValue → DispatchTrace
  | failed : RequestConfig → String → JSValue → DispatchTrace

/-- The `.then(callback).catch(...)` continuation applied to the
transport's outcome on configuration `cfg`. -/
def runTransport (cfg : RequestConfig)
    (transport : RequestConfig → TransportOutcome) : DispatchTrace :=
  match transport cfg with
  | .success r => .succeeded cfg r
  | .failure e => .failed cfg (jsonSegment e) (getProp e "response")

/-- `sendRequest(method, endpoint, params, callback)`: validate the
arguments (returning after a log line on failure), build the request
configuration, invoke the transport and run the promise continuations. -/
def sendRequest (hmac : String → String → String) (c : Client) (ts : Nat)
    (m : Method) (endpoint params callback : JSValue)
    (transport : RequestConfig → TransportOutcome) : DispatchTrace :=
  match validateArgs m endpoint params callback with
  | some msg => .rejected msg
  | none => runTransport (requestConfigOf hmac c ts m endpoint params) transport

/-- `this.get(endpoint, params, callback)`. -/
def Client.get (c : Client) (hmac : String → String → String) (ts : Nat)
    (endpoint params callback : JSValue)
    (transport : RequestConfig → TransportOutcome) : DispatchTrace :=
  sendRequest hmac c ts Method.get endpoint params callback transport

/-- `this.post(endpoint, params, callback)`. -/
def Client.post (c : Client) (hmac : String → String → String) (ts : Nat)
    (endpoint params callback : JSValue)
    (transport : RequestConfig → TransportOutcome) : DispatchTrace :=
  sendRequest hmac c ts Method.post endpoint params callback transport

/-- `this.put(endpoint, params, callback)`. -/
def Client.put (c : Client) (hmac : String → String → String) (ts : Nat)
    (endpoint params callback : JSValue)
    (transport : RequestConfig → TransportOutcome) : DispatchTrace :=
  sendRequest hmac c ts Method.put endpoint params callback transport

/-- `this.delete(endpoint, params, callback)`. -/
def Client.delete (c : Client) (hmac : String → String → String) (ts : Nat)
    (endpoint params callback : JSValue)
    (transport : RequestConfig → TransportOutcome) : DispatchTrace :=
  sendRequest hmac c ts Method.delete endpoint params callback transport

/-- The configuration handed to the transport by a trace, if any. -/
def configOf : DispatchTrace → Option RequestConfig
  | .rejected _ => none
  | .succeeded cfg _ => some cfg
  | .failed cfg _ _ => some cfg

/-- Whether a trace is a validation rejection (no transport call). -/
def isRejected : DispatchTrace → Bool
  | .rejected _ => true
  | _ => false

/-- The exact string over which `buildConfig` computes the HMAC for a
validated call: path, timestamp, uppercased method, and the body
segment (empty for GET).  It does not mention the secret. -/
def signingString (ts : Nat) (m : Method) (endpoint params : JSValue) : String :=
  endpoint.asString ++ toString ts ++ jsToUpper (methodStr m) ++
    (match m with
     | .get => ""
     | _ => jsonSegment params)

/-- A copy of a request configuration with the signature header replaced,
used to compare configurations up to the signature. -/
def RequestConfig.withSignature (cfg : RequestConfig) (s : String) : RequestConfig :=
  { cfg with headers := { cfg.headers with xDigestSignature := s } }

/-! ### Concrete fixtures used by witnesses and counterexamples -/

/-- A concrete stand-in for the HMAC collaborator, injective enough to
exhibit concrete signatures. -/
def hmacW : String → String → String :=
  fun key msg => "hmac[" ++ key ++ "|" ++ msg ++ "]"

/-- A concrete client instance. -/
def clientW : Client := Client.new "KEY" "SECRET"

/-- A concrete parameter object, `{"email":"a@b.com"}`. -/
def paramsW : JSValue := JSValue.vObj [("email", JSValue.vStr "a@b.com")]

/-- A concrete successful transport response. -/
def respW : JSValue :=
  JSValue.vObj [("status", JSValue.vNum 200),
                ("data", JSValue.vObj [("ok", JSValue.vBool true)])]

/-- A transport that always fulfills with `respW`. -/
def transportOkW : RequestConfig → TransportOutcome :=
  fun _ => TransportOutcome.success respW

/-- A concrete transport error whose `response` property is a 401
response object. -/
def errW : JSValue :=
  JSValue.vObj [("response", JSValue.vObj [("status", JSValue.vNum 401)])]

/-- A transport that always rejects with `errW`. -/
def transportFailW : RequestConfig → TransportOutcome :=
  fun _ => TransportOutcome.failure errW

/-! ### Helper lemmas -/

theorem configOf_runTransport (cfg : RequestConfig)
    (transport : RequestConfig → TransportOutcome) :
    configOf (runTransport cfg transport) = some cfg := by
  unfold runTransport
  cases transport cfg <;> rfl

theorem configOf_sendRequest (hmac : String → String → String) (c : Client)
    (ts : Nat) (m : Method) (endpoint params callback : JSValue)
    (transport : RequestConfig → TransportOutcome) (cfg : RequestConfig)
    (h : configOf (sendRequest hmac c ts m endpoint params callback transport) = some cfg) :
    cfg = requestConfigOf hmac c ts m endpoint params := by
  unfold sendRequest at h
  cases hv : validateArgs m endpoint params callback with
  | some msg => rw [hv] at h; simp [configOf] at h
  | none =>
      rw [hv, configOf_runTransport] at h
      exact (Option.some.inj h).symm

theorem validateArgs_none (m : Method) (endpoint params callback : JSValue)
    (hE : validateEndpoint endpoint = true) (hP : validateParams params = true)
    (hC : validateCallback callback = true) :
    validateArgs m endpoint params callback = none := by
  simp [validateArgs, hE, hP, hC]

/-! ### Claim theorems -/

/-- C1: for every dispatched request, the signature header equals the
HMAC collaborator applied to the API secret and the concatenation of the
literal path, the decimal timestamp, the uppercased method, and (for
GET) the empty string, otherwise the JSON serialization of the params
payload.  The right-hand side is a pure function of
(path, timestamp, method, params), so the value is deterministic. -/
theorem signature_matches_hmac_of_signing_string
    (hmac : String → String → String) (c : Client) (ts : Nat) (m : Method)
    (path : String) (params callback : JSValue)
    (transport : RequestConfig → TransportOutcome) (cfg : RequestConfig)
    (h : configOf (sendRequest hmac c ts m (JSValue.vStr path) params callback transport)
          = some cfg) :
    cfg.headers.xDigestSignature =
      hmac c.secret (path ++ toString ts ++ jsToUpper (methodStr m) ++
        (if m = Method.get then "" else jsonSegment params)) := by
  rw [configOf_sendRequest hmac c ts m (JSValue.vStr path) params callback transport cfg h]
  cases m <;> rfl

theorem signature_matches_hmac_of_signing_string_witness :
    (requestConfigOf hmacW clientW 7 Method.post (JSValue.vStr "/customer") paramsW).headers.xDigestSignature
      = hmacW clientW.secret ("/customer" ++ toString 7 ++ jsToUpper (methodStr Method.post) ++
          (if Method.post = Method.get then "" else jsonSegment paramsW)) :=
  signature_matches_hmac_of_signing_string hmacW clientW 7 Method.post
    "/customer" paramsW JSValue.vFunc transportOkW
    (requestConfigOf hmacW clientW 7 Method.post (JSValue.vStr "/customer") paramsW) rfl

/-- C2 counterexample: the claim says DELETE params are sent as URL
query parameters and not as a JSON body, but on a concrete DELETE
dispatch the built configuration has `params = null` and carries the
caller's params object in `data` (the JSON request body). -/
theorem delete_params_sent_as_body_counterexample :
    configOf (sendRequest hmacW clientW 7 Method.delete (JSValue.vStr "/customer")
        paramsW JSValue.vFunc transportOkW)
      = some (requestConfigOf hmacW clientW 7 Method.delete (JSValue.vStr "/customer") paramsW) ∧
    (requestConfigOf hmacW clientW 7 Method.delete (JSValue.vStr "/customer") paramsW).params
      = JSValue.vNull ∧
    (requestConfigOf hmacW clientW 7 Method.delete (JSValue.vStr "/customer") paramsW).data
      = paramsW :=
  ⟨rfl, rfl, rfl⟩

/-- C2 amended: params are placed by the test `method === 'get'` alone:
for GET they become URL query parameters (and the body is null); for
POST, PUT and DELETE they become the JSON request body (and the query
parameters are null). -/
theorem params_placement_by_method
    (hmac : String → String → String) (c : Client) (ts : Nat) (m : Method)
    (endpoint params callback : JSValue)
    (transport : RequestConfig → TransportOutcome) (cfg : RequestConfig)
    (h : configOf (sendRequest hmac c ts m endpoint params callback transport) = some cfg) :
    (m = Method.get → cfg.params = params ∧ cfg.data = JSValue.vNull) ∧
    (m ≠ Method.get → cfg.params = JSValue.vNull ∧ cfg.data = params) := by
  rw [configOf_sendRequest hmac c ts m endpoint params callback transport cfg h]
  refine ⟨fun hm => ?_, fun hm => ?_⟩
  · subst hm; exact ⟨rfl, rfl⟩
  · cases m with
    | get => exact absurd rfl hm
    | post => exact ⟨rfl, rfl⟩
    | put => exact ⟨rfl, rfl⟩
    | delete => exact ⟨rfl, rfl⟩

theorem params_placement_by_method_witness :
    (Method.get = Method.get →
      (requestConfigOf hmacW clientW 7 Method.get (JSValue.vStr "/wallet") paramsW).params = paramsW ∧
      (requestConfigOf hmacW clientW 7 Method.get (JSValue.vStr "/wallet") paramsW).data = JSValue.vNull) ∧
    (Method.get ≠ Method.get →
      (requestConfigOf hmacW clientW 7 Method.get (JSValue.vStr "/wallet") paramsW).params = JSValue.vNull ∧
      (requestConfigOf hmacW clientW 7 Method.get (JSValue.vStr "/wallet") paramsW).data = paramsW) :=
  params_placement_by_method hmacW clientW 7 Method.get (JSValue.vStr "/wallet")
    paramsW JSValue.vFunc transportOkW
    (requestConfigOf hmacW clientW 7 Method.get (JSValue.vStr "/wallet") paramsW) rfl

/-- C3 counterexample: the claim says an array params value is rejected,
but `typeof [] === 'object'`, so a concrete array passes validation and
the request is dispatched to the transport. -/
theorem array_params_dispatched_counterexample :
    validateParams (JSValue.vArr [JSValue.vNum 1]) = true ∧
    isRejected (sendRequest hmacW clientW 7 Method.get (JSValue.vStr "/wallet")
        (JSValue.vArr [JSValue.vNum 1]) JSValue.vFunc transportOkW) = false :=
  ⟨rfl, rfl⟩

/-- C3 amended: a params value is rejected exactly when it is truthy and
not of JavaScript `object` type (e.g. a nonzero number, a non-empty
string, `true`, or a function); arrays and `null` have `typeof`
`"object"` and pass, and falsy primitives (`undefined`, `false`, `0`,
`""`) also pass.  On rejection the failure is logged and no request is
handed to the transport. -/
theorem truthy_nonobject_params_rejected
    (hmac : String → String → String) (c : Client) (ts : Nat) (m : Method)
    (endpoint params callback : JSValue)
    (transport : RequestConfig → TransportOutcome)
    (hE : validateEndpoint endpoint = true)
    (hT : typeofJS params ≠ "object") (ht : jsTruthy params = true) :
    sendRequest hmac c ts m endpoint params callback transport
      = DispatchTrace.rejected ("Invalid params given to " ++ methodStr m ++ " method.") := by
  have hP : validateParams params = false := by
    unfold validateParams
    rw [if_neg (by simpa using hT)]
    simp [ht]
  unfold sendRequest validateArgs
  rw [hE, hP]
  rfl

theorem truthy_nonobject_params_rejected_witness :
    sendRequest hmacW clientW 7 Method.post (JSValue.vStr "/customer")
        (JSValue.vNum 5) JSValue.vFunc transportOkW
      = DispatchTrace.rejected ("Invalid params given to " ++ methodStr Method.post ++ " method.") :=
  truthy_nonobject_params_rejected hmacW clientW 7 Method.post
    (JSValue.vStr "/customer") (JSValue.vNum 5) JSValue.vFunc transportOkW
    rfl (by decide) rfl

/-- C4: for every path argument that is not a string whose first
character is `'/'`, the call is rejected: the endpoint log line is
emitted and the trace is `rejected`, so for every transport no request
is handed to it, no exception is raised (the function is total) and the
callback never receives a response. -/
theorem invalid_endpoint_rejected
    (hmac : String → String → String) (c : Client) (ts : Nat) (m : Method)
    (endpoint params callback : JSValue)
    (transport : RequestConfig → TransportOutcome)
    (h : ∀ s, endpoint = JSValue.vStr s → s.take 1 ≠ "/") :
    sendRequest hmac c ts m endpoint params callback transport
      = DispatchTrace.rejected ("Invalid endpoint given to " ++ methodStr m ++ " method.") := by
  have hE : validateEndpoint endpoint = false := by
    cases endpoint with
    | vStr s =>
        unfold validateEndpoint
        simpa using h s rfl
    | _ => rfl
  unfold sendRequest validateArgs
  rw [hE]
  rfl

theorem invalid_endpoint_rejected_witness :
    sendRequest hmacW clientW 7 Method.get (JSValue.vStr "wallet")
        JSValue.vNull JSValue.vFunc transportOkW
      = DispatchTrace.rejected ("Invalid endpoint given to " ++ methodStr Method.get ++ " method.") :=
  invalid_endpoint_rejected hmacW clientW 7 Method.get (JSValue.vStr "wallet")
    JSValue.vNull JSValue.vFunc transportOkW
    (by intro s hs; cases hs; decide)

/-- C5: for every dispatched GET request, the body segment of the
signing string is the empty string: the signature is computed over path,
timestamp and "GET" alone, whatever the params value is. -/
theorem get_signing_string_has_empty_body
    (hmac : String → String → String) (c : Client) (ts : Nat)
    (path : String) (params callback : JSValue)
    (transport : RequestConfig → TransportOutcome) (cfg : RequestConfig)
    (h : configOf (sendRequest hmac c ts Method.get (JSValue.vStr path) params callback transport)
          = some cfg) :
    cfg.headers.xDigestSignature
      = hmac c.secret (path ++ toString ts ++ "GET" ++ "") := by
  rw [configOf_sendRequest hmac c ts Method.get (JSValue.vStr path) params callback transport cfg h]
  rfl

theorem get_signing_string_has_empty_body_witness :
    (requestConfigOf hmacW clientW 7 Method.get (JSValue.vStr "/wallet") paramsW).headers.xDigestSignature
      = hmacW clientW.secret ("/wallet" ++ toString 7 ++ "GET" ++ "") :=
  get_signing_string_has_empty_body hmacW clientW 7 "/wallet" paramsW
    JSValue.vFunc transportOkW
    (requestConfigOf hmacW clientW 7 Method.get (JSValue.vStr "/wallet") paramsW) rfl

/-- C6: when the arguments validate and the transport rejects with an
error value `e`, the client logs `JSON.stringify(e)` and hands
`e.response` to the callback: the caller receives the failure's response
object when the transport provides one, and `undefined` (no usable
response) when `e` has no `response` property.  The client itself never
raises: the trace is the total value `failed`. -/
theorem transport_failure_logged_and_response_delivered
    (hmac : String → String → String) (c : Client) (ts : Nat) (m : Method)
    (endpoint params callback e : JSValue)
    (transport : RequestConfig → TransportOutcome)
    (hv : validateArgs m endpoint params callback = none)
    (hf : transport (requestConfigOf hmac c ts m endpoint params)
          = TransportOutcome.failure e) :
    sendRequest hmac c ts m endpoint params callback transport
      = DispatchTrace.failed (requestConfigOf hmac c ts m endpoint params)
          (jsonSegment e) (getProp e "response") := by
  unfold sendRequest
  rw [hv]
  unfold runTransport
  rw [hf]

theorem transport_failure_logged_and_response_delivered_witness :
    sendRequest hmacW clientW 7 Method.get (JSValue.vStr "/auth-test")
        JSValue.vNull JSValue.vFunc transportFailW
      = DispatchTrace.failed
          (requestConfigOf hmacW clientW 7 Method.get (JSValue.vStr "/auth-test") JSValue.vNull)
          (jsonSegment errW) (getProp errW "response") :=
  transport_failure_logged_and_response_delivered hmacW clientW 7 Method.get
    (JSValue.vStr "/auth-test") JSValue.vNull JSValue.vFunc errW transportFailW
    rfl rfl

/-- C7: two clients that differ only in their API secret build, for the
same arguments and timestamp, configurations identical in every field
once the signature header is erased; the key header carries the stored
key unchanged, and each signature is the HMAC collaborator applied to
that client's secret and a signing string that does not depend on
either secret.  (The embedding is pure: no dispatch can modify the
stored credentials.) -/
theorem secret_influences_only_signature
    (hmac : String → String → String) (k s1 s2 : String) (ts : Nat) (m : Method)
    (endpoint params callback : JSValue)
    (transport1 transport2 : RequestConfig → TransportOutcome)
    (cfg1 cfg2 : RequestConfig)
    (h1 : configOf (sendRequest hmac (Client.new k s1) ts m endpoint params callback transport1)
          = some cfg1)
    (h2 : configOf (sendRequest hmac (Client.new k s2) ts m endpoint params callback transport2)
          = some cfg2) :
    cfg1.withSignature "" = cfg2.withSignature "" ∧
    cfg1.headers.xDigestKey = k ∧ cfg2.headers.xDigestKey = k ∧
    cfg1.headers.xDigestSignature = hmac s1 (signingString ts m endpoint params) ∧
    cfg2.headers.xDigestSignature = hmac s2 (signingString ts m endpoint params) := by
  rw [configOf_sendRequest hmac (Client.new k s1) ts m endpoint params callback transport1 cfg1 h1]
  rw [configOf_sendRequest hmac (Client.new k s2) ts m endpoint params callback transport2 cfg2 h2]
  refine ⟨rfl, rfl, rfl, ?_, ?_⟩ <;> cases m <;> rfl

theorem secret_influences_only_signature_witness :
    (requestConfigOf hmacW (Client.new "KEY" "S1") 7 Method.post (JSValue.vStr "/customer") paramsW).withSignature ""
      = (requestConfigOf hmacW (Client.new "KEY" "S2") 7 Method.post (JSValue.vStr "/customer") paramsW).withSignature "" ∧
    (requestConfigOf hmacW (Client.new "KEY" "S1") 7 Method.post (JSValue.vStr "/customer") paramsW).headers.xDigestKey = "KEY" ∧
    (requestConfigOf hmacW (Client.new "KEY" "S2") 7 Method.post (JSValue.vStr "/customer") paramsW).headers.xDigestKey = "KEY" ∧
    (requestConfigOf hmacW (Client.new "KEY" "S1") 7 Method.post (JSValue.vStr "/customer") paramsW).headers.xDigestSignature
      = hmacW "S1" (signingString 7 Method.post (JSValue.vStr "/customer") paramsW) ∧
    (requestConfigOf hmacW (Client.new "KEY" "S2") 7 Method.post (JSValue.vStr "/customer") paramsW).headers.xDigestSignature
      = hmacW "S2" (signingString 7 Method.post (JSValue.vStr "/customer") paramsW) :=
  secret_influences_only_signature hmacW "KEY" "S1" "S2" 7 Method.post
    (JSValue.vStr "/customer") paramsW JSValue.vFunc transportOkW transportOkW
    (requestConfigOf hmacW (Client.new "KEY" "S1") 7 Method.post (JSValue.vStr "/customer") paramsW)
    (requestConfigOf hmacW (Client.new "KEY" "S2") 7 Method.post (JSValue.vStr "/customer") paramsW)
    rfl rfl

/-- C8: each of the four public operations, when its arguments validate
and the transport fulfills, completes with the built configuration and
the transport's response value handed to the caller's callback. -/
theorem public_ops_deliver_transport_response
    (hmac : String → String → String) (c : Client) (ts : Nat)
    (endpoint params callback : JSValue)
    (transport : RequestConfig → TransportOutcome)
    (rg rp ru rd : JSValue)
    (hE : validateEndpoint endpoint = true)
    (hP : validateParams params = true)
    (hC : validateCallback callback = true)
    (hg : transport (requestConfigOf hmac c ts Method.get endpoint params)
          = TransportOutcome.success rg)
    (hp : transport (requestConfigOf hmac c ts Method.post endpoint params)
          = TransportOutcome.success rp)
    (hu : transport (requestConfigOf hmac c ts Method.put endpoint params)
          = TransportOutcome.success ru)
    (hd : transport (requestConfigOf hmac c ts Method.delete endpoint params)
          = TransportOutcome.success rd) :
    Client.get c hmac ts endpoint params callback transport
      = DispatchTrace.succeeded (requestConfigOf hmac c ts Method.get endpoint params) rg ∧
    Client.post c hmac ts endpoint params callback transport
      = DispatchTrace.succeeded (requestConfigOf hmac c ts Method.post endpoint params) rp ∧
    Client.put c hmac ts endpoint params callback transport
      = DispatchTrace.succeeded (requestConfigOf hmac c ts Method.put endpoint params) ru ∧
    Client.delete c hmac ts endpoint params callback transport
      = DispatchTrace.succeeded (requestConfigOf hmac c ts Method.delete endpoint params) rd := by
  refine ⟨?_, ?_, ?_, ?_⟩
  · unfold Client.get sendRequest
    rw [validateArgs_none Method.get endpoint params callback hE hP hC]
    unfold runTransport
    rw [hg]
  · unfold Client.post sendRequest
    rw [validateArgs_none Method.post endpoint params callback hE hP hC]
    unfold runTransport
    rw [hp]
  · unfold Client.put sendRequest
    rw [validateArgs_none Method.put endpoint params callback hE hP hC]
    unfold runTransport
    rw [hu]
  · unfold Client.delete sendRequest
    rw [validateArgs_none Method.delete endpoint params callback hE hP hC]
    unfold runTransport
    rw [hd]

theorem public_ops_deliver_transport_response_witness :
    Client.get clientW hmacW 7 (JSValue.vStr "/wallet") paramsW JSValue.vFunc transportOkW
      = DispatchTrace.succeeded (requestConfigOf hmacW clientW 7 Method.get (JSValue.vStr "/wallet") paramsW) respW ∧
    Client.post clientW hmacW 7 (JSValue.vStr "/wallet") paramsW JSValue.vFunc transportOkW
      = DispatchTrace.succeeded (requestConfigOf hmacW clientW 7 Method.post (JSValue.vStr "/wallet") paramsW) respW ∧
    Client.put clientW hmacW 7 (JSValue.vStr "/wallet") paramsW JSValue.vFunc transportOkW
      = DispatchTrace.succeeded (requestConfigOf hmacW clientW 7 Method.put (JSValue.vStr "/wallet") paramsW) respW ∧
    Client.delete clientW hmacW 7 (JSValue.vStr "/wallet") paramsW JSValue.vFunc transportOkW
      = DispatchTrace.succeeded (requestConfigOf hmacW clientW 7 Method.delete (JSValue.vStr "/wallet") paramsW) respW :=
  public_ops_deliver_transport_response hmacW clientW 7 (JSValue.vStr "/wallet")
    paramsW JSValue.vFunc transportOkW respW respW respW respW
    rfl rfl rfl rfl rfl rfl rfl

/-- C9: whenever the callback argument is not a function (e.g. omitted,
hence `undefined`), the call is rejected and nothing reaches the
transport; and when path and params are otherwise valid, the rejection
is exactly the logged callback message. -/
theorem invalid_callback_rejected
    (hmac : String → String → String) (c : Client) (ts : Nat) (m : Method)
    (endpoint params callback : JSValue)
    (transport : RequestConfig → TransportOutcome)
    (h : typeofJS callback ≠ "function") :
    isRejected (sendRequest hmac c ts m endpoint params callback transport) = true ∧
    (validateEndpoint endpoint = true → validateParams params = true →
      sendRequest hmac c ts m endpoint params callback transport
        = DispatchTrace.rejected ("Invalid callback given to " ++ methodStr m ++ " method.")) := by
  have hC : validateCallback callback = false := by
    unfold validateCallback
    simpa using h
  constructor
  · unfold sendRequest validateArgs
    cases hE : validateEndpoint endpoint with
    | false => rfl
    | true =>
        cases hP : validateParams params with
        | false => rfl
        | true => rw [hC]; rfl
  · intro hE hP
    unfold sendRequest validateArgs
    rw [hE, hP, hC]
    rfl

theorem invalid_callback_rejected_witness :
    isRejected (sendRequest hmacW clientW 7 Method.get (JSValue.vStr "/wallet")
        paramsW JSValue.vUndefined transportOkW) = true ∧
    (validateEndpoint (JSValue.vStr "/wallet") = true → validateParams paramsW = true →
      sendRequest hmacW clientW 7 Method.get (JSValue.vStr "/wallet")
          paramsW JSValue.vUndefined transportOkW
        = DispatchTrace.rejected ("Invalid callback given to " ++ methodStr Method.get ++ " method.")) :=
  invalid_callback_rejected hmacW clientW 7 Method.get (JSValue.vStr "/wallet")
    paramsW JSValue.vUndefined transportOkW (by decide)

/-- C10: for POST, PUT and DELETE with a null or absent params value,
validation passes; the body segment of the signing string is the
literal text "null" (for `null`) or "undefined" (for absent params,
because string concatenation coerces `JSON.stringify`'s `undefined`
result); and that very null/absent value is the `data` field handed to
the transport. -/
theorem nullish_params_signed_and_forwarded
    (hmac : String → String → String) (c : Client) (ts : Nat) (m : Method)
    (path : String) (params callback : JSValue)
    (hm : m ≠ Method.get)
    (hC : validateCallback callback = true)
    (hpath : path.take 1 = "/")
    (hp : params = JSValue.vNull ∨ params = JSValue.vUndefined) :
    validateArgs m (JSValue.vStr path) params callback = none ∧
    (requestConfigOf hmac c ts m (JSValue.vStr path) params).data = params ∧
    (requestConfigOf hmac c ts m (JSValue.vStr path) params).headers.xDigestSignature
      = hmac c.secret (path ++ toString ts ++ jsToUpper (methodStr m) ++
          (match params with
           | JSValue.vNull => "null"
           | _ => "undefined")) := by
  have hE : validateEndpoint (JSValue.vStr path) = true := by
    unfold validateEndpoint
    simp [hpath]
  have hP : validateParams params = true := by
    cases hp with
    | inl h => subst h; rfl
    | inr h => subst h; rfl
  refine ⟨validateArgs_none m (JSValue.vStr path) params callback hE hP hC, ?_, ?_⟩
  · cases m with
    | get => exact absurd rfl hm
    | post => rfl
    | put => rfl
    | delete => rfl
  · cases hp with
    | inl h =>
        subst h
        cases m with
        | get => exact absurd rfl hm
        | post => rfl
        | put => rfl
        | delete => rfl
    | inr h =>
        subst h
        cases m with
        | get => exact absurd rfl hm
        | post => rfl
        | put => rfl
        | delete => rfl

theorem nullish_params_signed_and_forwarded_witness :
    validateArgs Method.post (JSValue.vStr "/customer") JSValue.vNull JSValue.vFunc = none ∧
    (requestConfigOf hmacW clientW 7 Method.post (JSValue.vStr "/customer") JSValue.vNull).data
      = JSValue.vNull ∧
    (requestConfigOf hmacW clientW 7 Method.post (JSValue.vStr "/customer") JSValue.vNull).headers.xDigestSignature
      = hmacW clientW.secret ("/customer" ++ toString 7 ++ jsToUpper (methodStr Method.post) ++
          (match JSValue.vNull with
           | JSValue.vNull => "null"
           | _ => "undefined")) :=
  nullish_params_signed_and_forwarded hmacW clientW 7 Method.post "/customer"
    JSValue.vNull JSValue.vFunc (by decide) rfl rfl (Or.inl rfl)
